import Mathlib

/-!
Shallow embedding of the cryptographic core of the mlspp repository
(src/src/crypto.cpp), together with theorems settling the specification
claims about it.

Byte strings are `List Nat` (each entry one octet).  The primitive
algorithm libraries (KEM, KDF, AEAD, signature, the TLS syntax codec)
live outside src/, so they are modelled from the spec as abstract
structures whose fields carry the correctness properties the spec
states for them; everything in src/src/crypto.cpp itself is translated
directly from the source.
-/

/-- Byte strings, one octet per list entry. -/
abbrev MBytes := List Nat

/-- ASCII conversion, mirroring from_ascii in the byte-utility library:
each character of the string becomes one octet. -/
def from_ascii (s : String) : MBytes :=
  s.data.map Char.toNat

/-- Error kinds from the spec's error taxonomy (section 7).
InvalidParameterError is the exception type actually thrown in
src/src/crypto.cpp; the message carries the throw-site string.
HPKEDecryptionError is listed by the spec as a distinct kind, so it is a
distinct constructor here, which lets a theorem observe which kind an
operation fails with. -/
inductive MLSError where
  | InvalidParameterError (msg : String)
  | TLSDecodeError (msg : String)
  | HPKEDecryptionError (msg : String)
  | SignatureVerificationFailure (msg : String)
  | HexDecodeError (msg : String)

/-- Discriminator: is this error of the HPKEDecryptionError kind? -/
def MLSError.isHPKEDecryptionError : MLSError → Bool
  | .HPKEDecryptionError _ => true
  | _ => false

/-- Discriminator: is this error of the InvalidParameterError kind? -/
def MLSError.isInvalidParameterError : MLSError → Bool
  | .InvalidParameterError _ => true
  | _ => false

/-- KEM algorithm identifiers used by the six suites (hpke::KEM::ID). -/
inductive KEM.ID where
  | DHKEM_X25519_SHA256
  | DHKEM_P256_SHA256
  | DHKEM_X448_SHA512
  | DHKEM_P521_SHA512

/-- KDF algorithm identifiers used by the six suites (hpke::KDF::ID). -/
inductive KDF.ID where
  | HKDF_SHA256
  | HKDF_SHA512

/-- AEAD algorithm identifiers used by the six suites (hpke::AEAD::ID). -/
inductive AEAD.ID where
  | AES_128_GCM
  | AES_256_GCM
  | CHACHA20_POLY1305

/-- Digest algorithm identifiers used by the six suites (hpke::Digest::ID). -/
inductive Digest.ID where
  | SHA256
  | SHA512

/-- Signature algorithm identifiers handled by tls_signature_scheme in
src/src/crypto.cpp lines 20-39 (hpke::Signature::ID). -/
inductive Signature.ID where
  | P256_SHA256
  | P384_SHA384
  | P521_SHA512
  | Ed25519
  | Ed448
  | RSA_SHA256

/-- TLS signature scheme codes (mls::SignatureScheme). -/
inductive SignatureScheme where
  | ecdsa_secp256r1_sha256
  | ecdsa_secp384r1_sha384
  | ecdsa_secp521r1_sha512
  | ed25519
  | ed448
  | rsa_pkcs1_sha256

/-- Mapping from signature algorithm to TLS signature scheme code,
from tls_signature_scheme in src/src/crypto.cpp lines 20-39.  The C++
switch covers every listed ID, so the function is total here. -/
def tls_signature_scheme : Signature.ID → SignatureScheme
  | .P256_SHA256 => .ecdsa_secp256r1_sha256
  | .P384_SHA384 => .ecdsa_secp384r1_sha384
  | .P521_SHA512 => .ecdsa_secp521r1_sha512
  | .Ed25519 => .ed25519
  | .Ed448 => .ed448
  | .RSA_SHA256 => .rsa_pkcs1_sha256

/-- The HPKE member of a ciphersuite bundle: the three algorithm IDs the
HPKE object is constructed from in CipherSuite::get. -/
structure HPKEIds where
  kem : KEM.ID
  kdf : KDF.ID
  aead : AEAD.ID

/-- A ciphersuite bundle, CipherSuite::Ciphers: HPKE algorithm IDs, a
digest ID and a signature ID. -/
structure Ciphers where
  hpke : HPKEIds
  digest : Digest.ID
  sig : Signature.ID

/-- MLS ciphersuite identifiers, CipherSuite::ID, with the sentinel
unknown = 0x0000 for the default-constructed state. -/
inductive CipherSuite.ID where
  | unknown
  | X25519_AES128GCM_SHA256_Ed25519
  | P256_AES128GCM_SHA256_P256
  | X25519_CHACHA20POLY1305_SHA256_Ed25519
  | X448_AES256GCM_SHA512_Ed448
  | P521_AES256GCM_SHA512_P521
  | X448_CHACHA20POLY1305_SHA512_Ed448
  deriving DecidableEq

/-- The 16-bit wire code of each ciphersuite ID. -/
def CipherSuite.ID.code : CipherSuite.ID → Nat
  | .unknown => 0x0000
  | .X25519_AES128GCM_SHA256_Ed25519 => 0x0001
  | .P256_AES128GCM_SHA256_P256 => 0x0002
  | .X25519_CHACHA20POLY1305_SHA256_Ed25519 => 0x0003
  | .X448_AES256GCM_SHA512_Ed448 => 0x0004
  | .P521_AES256GCM_SHA512_P521 => 0x0005
  | .X448_CHACHA20POLY1305_SHA512_Ed448 => 0x0006

/-- CipherSuite::get, src/src/crypto.cpp lines 74-150: maps each
supported ID to its algorithm bundle and throws InvalidParameterError
with message "Uninitialized ciphersuite" on the unknown sentinel. -/
def CipherSuite.get : CipherSuite.ID → Except MLSError Ciphers
  | .unknown =>
      Except.error (MLSError.InvalidParameterError "Uninitialized ciphersuite")
  | .X25519_AES128GCM_SHA256_Ed25519 =>
      Except.ok ⟨⟨.DHKEM_X25519_SHA256, .HKDF_SHA256, .AES_128_GCM⟩,
                 .SHA256, .Ed25519⟩
  | .P256_AES128GCM_SHA256_P256 =>
      Except.ok ⟨⟨.DHKEM_P256_SHA256, .HKDF_SHA256, .AES_128_GCM⟩,
                 .SHA256, .P256_SHA256⟩
  | .X25519_CHACHA20POLY1305_SHA256_Ed25519 =>
      Except.ok ⟨⟨.DHKEM_X25519_SHA256, .HKDF_SHA256, .CHACHA20_POLY1305⟩,
                 .SHA256, .Ed25519⟩
  | .X448_AES256GCM_SHA512_Ed448 =>
      Except.ok ⟨⟨.DHKEM_X448_SHA512, .HKDF_SHA512, .AES_256_GCM⟩,
                 .SHA512, .Ed448⟩
  | .P521_AES256GCM_SHA512_P521 =>
      Except.ok ⟨⟨.DHKEM_P521_SHA512, .HKDF_SHA512, .AES_256_GCM⟩,
                 .SHA512, .P521_SHA512⟩
  | .X448_CHACHA20POLY1305_SHA512_Ed448 =>
      Except.ok ⟨⟨.DHKEM_X448_SHA512, .HKDF_SHA512, .CHACHA20_POLY1305⟩,
                 .SHA512, .Ed448⟩

/-- CipherSuite::signature_scheme, src/src/crypto.cpp lines 55-72: a
direct switch on the ID, throwing InvalidParameterError with message
"Unsupported algorithm" on the unknown sentinel. -/
def CipherSuite.signature_scheme :
    CipherSuite.ID → Except MLSError SignatureScheme
  | .X25519_AES128GCM_SHA256_Ed25519 => Except.ok .ed25519
  | .X25519_CHACHA20POLY1305_SHA256_Ed25519 => Except.ok .ed25519
  | .P256_AES128GCM_SHA256_P256 => Except.ok .ecdsa_secp256r1_sha256
  | .X448_AES256GCM_SHA512_Ed448 => Except.ok .ed448
  | .X448_CHACHA20POLY1305_SHA512_Ed448 => Except.ok .ed448
  | .P521_AES256GCM_SHA512_P521 => Except.ok .ecdsa_secp521r1_sha512
  | .unknown =>
      Except.error (MLSError.InvalidParameterError "Unsupported algorithm")

/-- all_supported_suites, src/src/crypto.cpp lines 187-194. -/
def all_supported_suites : List CipherSuite.ID :=
  [ .X25519_AES128GCM_SHA256_Ed25519,
    .P256_AES128GCM_SHA256_P256,
    .X25519_CHACHA20POLY1305_SHA256_Ed25519,
    .X448_AES256GCM_SHA512_Ed448,
    .P521_AES256GCM_SHA512_P521,
    .X448_CHACHA20POLY1305_SHA512_Ed448 ]

/-- Output size in octets of each digest. -/
def Digest.outputSize : Digest.ID → Nat
  | .SHA256 => 32
  | .SHA512 => 64

/-- CipherSuite::secret_size: the ciphersuite's digest output size,
resolved through get and hence failing on the unknown sentinel. -/
def CipherSuite.secret_size (id : CipherSuite.ID) : Except MLSError Nat :=
  (CipherSuite.get id).map (fun c => Digest.outputSize c.digest)

/-- Modelled from the spec: the MLS variable-length vector length
prefix of the TLS syntax library, which is not under src/.  Lengths
below 2^6 take one octet, below 2^14 two octets, below 2^30 four
octets, each with the two-bit size marker in the high bits.  Lengths of
2^30 and above are outside the MLS varint range; the definition is kept
total by still emitting the four-octet form there. -/
def varintEncode (n : Nat) : MBytes :=
  if n < 64 then [n]
  else if n < 16384 then [64 + n / 256, n % 256]
  else [128 + n / 16777216 % 256, n / 65536 % 256, n / 256 % 256, n % 256]

/-- Modelled from the spec: TLS encoding of a variable-length byte
vector, the MLS varint length prefix followed by the payload. -/
def encodeVec (v : MBytes) : MBytes :=
  varintEncode v.length ++ v

/-- Modelled from the spec: TLS encoding of a 16-bit unsigned integer
in network byte order. -/
def encodeU16 (n : Nat) : MBytes :=
  [n / 256 % 256, n % 256]

/-- The HKDFLabel struct of src/src/crypto.cpp lines 152-159: a u16
length and two byte vectors.  The length field is a uint16_t, kept here
as a Nat that callers reduce mod 2^16. -/
structure HKDFLabel where
  length : Nat
  label : MBytes
  context : MBytes

/-- TLS marshalling of HKDFLabel, per its TLS_SERIALIZABLE declaration:
member encodings concatenated in declaration order. -/
def HKDFLabel.marshal (x : HKDFLabel) : MBytes :=
  encodeU16 x.length ++ encodeVec x.label ++ encodeVec x.context

/-- The SignContent struct of src/src/crypto.cpp lines 326-331: a label
and a content byte vector. -/
structure SignContent where
  label : MBytes
  content : MBytes

/-- TLS marshalling of SignContent, per its TLS_SERIALIZABLE
declaration. -/
def SignContent.marshal (x : SignContent) : MBytes :=
  encodeVec x.label ++ encodeVec x.content

/-- Modelled from the spec: the KDF primitive interface (the hpke
library is not under src/).  The extract and expand maps are abstract;
the spec fixes that expand returns exactly L octets. -/
structure KDFImpl where
  extract : MBytes → MBytes → MBytes
  expand : MBytes → MBytes → Nat → MBytes
  expand_length : ∀ prk info L, (expand prk info L).length = L

/-- CipherSuite::expand_with_label, src/src/crypto.cpp lines 161-178:
prepend "mls10 " to the label, truncate the requested length to a
uint16_t for the HKDFLabel length field, marshal the HKDFLabel, and
expand the secret with it.  The KDF is reached through get(), which
fails on the unknown sentinel; the KDF implementation itself is a
parameter. -/
def CipherSuite.expand_with_label (kdf : KDFImpl) (id : CipherSuite.ID)
    (secret : MBytes) (label : String) (context : MBytes)
    (length : Nat) : Except MLSError MBytes :=
  (CipherSuite.get id).bind (fun _ =>
    let mls_label := from_ascii ("mls10 " ++ label)
    let length16 := length % 65536
    let label_bytes := HKDFLabel.marshal ⟨length16, mls_label, context⟩
    Except.ok (kdf.expand secret label_bytes length))

/-- CipherSuite::derive_secret, src/src/crypto.cpp lines 180-185:
expand_with_label with empty context and the suite's secret size. -/
def CipherSuite.derive_secret (kdf : KDFImpl) (id : CipherSuite.ID)
    (secret : MBytes) (label : String) : Except MLSError MBytes :=
  (CipherSuite.secret_size id).bind (fun n =>
    CipherSuite.expand_with_label kdf id secret label [] n)

/-- CipherSuite::reference_label for KeyPackage, src/src/crypto.cpp
lines 198-204. -/
def reference_label_KeyPackage : MBytes :=
  from_ascii "MLS 1.0 KeyPackage Reference"

/-- CipherSuite::reference_label for MLSAuthenticatedContent,
src/src/crypto.cpp lines 211-217. -/
def reference_label_MLSAuthenticatedContent : MBytes :=
  from_ascii "MLS 1.0 Proposal Reference"

/-- Modelled from the spec: make_reference for a type with marshalling
marshalT (the template lives in a header outside src/; the comments at
src/src/crypto.cpp lines 196-197 and 206-210 state the same formula as
the spec): expand the extract of the marshalled value with the type's
reference label, requesting 16 octets. -/
def make_reference {α : Type} (kdf : KDFImpl) (label : MBytes)
    (marshalT : α → MBytes) (value : α) : MBytes :=
  kdf.expand (kdf.extract [] (marshalT value)) label 16

/-- Modelled from the spec: the KEM primitive interface (the hpke
library is not under src/).  Key types are abstract; the entropy
argument of generateKeyPair and encap makes the randomness of the C++
calls explicit.  The property fields are the spec's statements that
serialization round-trips for both halves and that decap recovers the
shared secret produced by encap against the matching public key. -/
structure KEMImpl where
  Priv : Type
  Pub : Type
  generateKeyPair : MBytes → Priv
  deriveKeyPair : MBytes → Priv
  publicKey : Priv → Pub
  serialize : Pub → MBytes
  deserialize : MBytes → Except MLSError Pub
  serializePriv : Priv → MBytes
  deserializePriv : MBytes → Except MLSError Priv
  encap : Pub → MBytes → MBytes × MBytes
  decap : MBytes → Priv → MBytes
  deserialize_serialize : ∀ pk, deserialize (serialize pk) = Except.ok pk
  deserializePriv_serializePriv :
    ∀ sk, deserializePriv (serializePriv sk) = Except.ok sk
  decap_encap : ∀ sk ent,
    decap (encap (publicKey sk) ent).1 sk = (encap (publicKey sk) ent).2

/-- Modelled from the spec: the AEAD primitive interface (the hpke
library is not under src/).  aeadSeal and aeadOpen are the seal and
open operations; the property field is the spec's seal/open round trip. -/
structure AEADImpl where
  aeadSeal : MBytes → MBytes → MBytes → MBytes → MBytes
  aeadOpen : MBytes → MBytes → MBytes → MBytes → Option MBytes
  aeadOpen_seal : ∀ key nonce aad pt,
    aeadOpen key nonce aad (aeadSeal key nonce aad pt) = some pt

/-- Modelled from the spec: an HPKE instance as used by the key types,
a KEM, an AEAD, and the RFC 9180 key schedule abstracted as a map from
(shared secret, info) to the context's (key, base_nonce).  Both sides
run the same key schedule, which is all the round-trip claims need. -/
structure HPKEImpl where
  kem : KEMImpl
  aead : AEADImpl
  keySchedule : MBytes → MBytes → MBytes × MBytes

/-- Modelled from the spec: setup_base_s composed with the single-shot
context state: encap to the receiver key, run the key schedule on the
shared secret and info, return the KEM output and the (key, base_nonce)
pair; the single-shot seal/open use sequence 0, whose XOR into
base_nonce is the identity. -/
def setup_base_s (H : HPKEImpl) (pkR : H.kem.Pub) (info ent : MBytes) :
    MBytes × (MBytes × MBytes) :=
  let es := H.kem.encap pkR ent
  (es.1, H.keySchedule es.2 info)

/-- Modelled from the spec: setup_base_r, the receive-side key
schedule on the decapsulated shared secret. -/
def setup_base_r (H : HPKEImpl) (enc : MBytes) (skR : H.kem.Priv)
    (info : MBytes) : MBytes × MBytes :=
  H.keySchedule (H.kem.decap enc skR) info

/-- HPKECiphertext: KEM output and AEAD ciphertext. -/
structure HPKECiphertext where
  kem_output : MBytes
  ciphertext : MBytes

/-- HPKEPrivateKey: serialized private bytes plus the serialized public
half, as stored by the two-argument constructor at src/src/crypto.cpp
lines 305-309. -/
structure HPKEPrivateKey where
  data : MBytes
  public_key : MBytes

/-- HPKEPublicKey::encrypt, src/src/crypto.cpp lines 222-232:
deserialize the stored public bytes with the suite's KEM, run
setup_base_s, seal, and return the KEM output with the ciphertext.  The
suite bundle is resolved through get(), which fails on the unknown
sentinel. -/
def HPKEPublicKey.encrypt (H : HPKEImpl) (id : CipherSuite.ID)
    (data info aad pt ent : MBytes) : Except MLSError HPKECiphertext :=
  (CipherSuite.get id).bind (fun _ =>
    (H.kem.deserialize data).bind (fun pkR =>
      let s := setup_base_s H pkR info ent
      Except.ok ⟨s.1, H.aead.aeadSeal s.2.1 s.2.2 aad pt⟩))

/-- HPKEPrivateKey::generate, src/src/crypto.cpp lines 247-255:
generate a KEM key pair and store the serialized private and public
halves. -/
def HPKEPrivateKey.generate (H : HPKEImpl) (id : CipherSuite.ID)
    (ent : MBytes) : Except MLSError HPKEPrivateKey :=
  (CipherSuite.get id).bind (fun _ =>
    let priv := H.kem.generateKeyPair ent
    Except.ok ⟨H.kem.serializePriv priv,
               H.kem.serialize (H.kem.publicKey priv)⟩)

/-- HPKEPrivateKey::parse, src/src/crypto.cpp lines 257-264:
deserialize the private bytes, store them as given together with the
serialization of the derived public key. -/
def HPKEPrivateKey.parse (H : HPKEImpl) (id : CipherSuite.ID)
    (data : MBytes) : Except MLSError HPKEPrivateKey :=
  (CipherSuite.get id).bind (fun _ =>
    (H.kem.deserializePriv data).bind (fun priv =>
      Except.ok ⟨data, H.kem.serialize (H.kem.publicKey priv)⟩))

/-- HPKEPrivateKey::derive, src/src/crypto.cpp lines 266-274: derive a
KEM key pair from the seed and store the serialized halves. -/
def HPKEPrivateKey.derive (H : HPKEImpl) (id : CipherSuite.ID)
    (secret : MBytes) : Except MLSError HPKEPrivateKey :=
  (CipherSuite.get id).bind (fun _ =>
    let priv := H.kem.deriveKeyPair secret
    Except.ok ⟨H.kem.serializePriv priv,
               H.kem.serialize (H.kem.publicKey priv)⟩)

/-- HPKEPrivateKey::decrypt, src/src/crypto.cpp lines 276-290:
deserialize the stored private bytes, run setup_base_r on the KEM
output, open the ciphertext, and on open failure throw
InvalidParameterError with message "HPKE decryption failure" (this is
the exception the source actually throws at line 286). -/
def HPKEPrivateKey.decrypt (H : HPKEImpl) (id : CipherSuite.ID)
    (sk : HPKEPrivateKey) (info aad : MBytes) (ct : HPKECiphertext) :
    Except MLSError MBytes :=
  (CipherSuite.get id).bind (fun _ =>
    (H.kem.deserializePriv sk.data).bind (fun skR =>
      let kn := setup_base_r H ct.kem_output skR info
      match H.aead.aeadOpen kn.1 kn.2 aad ct.ciphertext with
      | none =>
          Except.error (MLSError.InvalidParameterError "HPKE decryption failure")
      | some pt => Except.ok pt))

/-- Consistency of a stored HPKE key pair: deserializing the stored
private bytes succeeds and the stored public bytes are the
serialization of the public key derived from them. -/
def KEMImpl.consistentPair (K : KEMImpl) (sk : HPKEPrivateKey) : Prop :=
  match K.deserializePriv sk.data with
  | Except.ok priv => sk.public_key = K.serialize (K.publicKey priv)
  | Except.error _ => False

/-- Modelled from the spec: the signature primitive interface (the hpke
library is not under src/).  Key types are abstract, generateKeyPair
takes explicit entropy, and the property fields are the spec's
serialization round trips and the sign/verify round trip. -/
structure SignatureImpl where
  Priv : Type
  Pub : Type
  generateKeyPair : MBytes → Priv
  deriveKeyPair : MBytes → Priv
  publicKey : Priv → Pub
  serialize : Pub → MBytes
  deserialize : MBytes → Except MLSError Pub
  serializePriv : Priv → MBytes
  deserializePriv : MBytes → Except MLSError Priv
  sign : MBytes → Priv → MBytes
  verify : MBytes → MBytes → Pub → Bool
  deserialize_serialize : ∀ pk, deserialize (serialize pk) = Except.ok pk
  deserializePriv_serializePriv :
    ∀ sk, deserializePriv (serializePriv sk) = Except.ok sk
  verify_sign : ∀ msg sk,
    verify msg (sign msg sk) (publicKey sk) = true

/-- The sign_label constants of src/src/crypto.cpp lines 317-324, each
produced by the SIGN_LABEL macro as from_ascii of "MLS 1.0 " followed
by the name. -/
def sign_label_mls_content : MBytes := from_ascii "MLS 1.0 MLSContentTBS"

/-- sign_label::leaf_node, src/src/crypto.cpp line 321. -/
def sign_label_leaf_node : MBytes := from_ascii "MLS 1.0 LeafNodeTBS"

/-- sign_label::key_package, src/src/crypto.cpp line 322. -/
def sign_label_key_package : MBytes := from_ascii "MLS 1.0 KeyPackageTBS"

/-- sign_label::group_info, src/src/crypto.cpp line 323. -/
def sign_label_group_info : MBytes := from_ascii "MLS 1.0 GroupInfoTBS"

/-- SignaturePrivateKey: serialized private bytes plus the serialized
public half, as stored by the two-argument constructor at
src/src/crypto.cpp lines 383-387. -/
structure SignaturePrivateKey where
  data : MBytes
  public_key : MBytes

/-- SignaturePublicKey::verify, src/src/crypto.cpp lines 333-342:
marshal SignContent from the label and message, deserialize the stored
public bytes with the suite's signature algorithm, and verify the
signature over the marshalled content.  The suite bundle is resolved
through get() (suite.sig()), which fails on the unknown sentinel. -/
def SignaturePublicKey.verify (S : SignatureImpl) (id : CipherSuite.ID)
    (data label message signature : MBytes) : Except MLSError Bool :=
  (CipherSuite.get id).bind (fun _ =>
    let content := SignContent.marshal ⟨label, message⟩
    (S.deserialize data).bind (fun pub =>
      Except.ok (S.verify content signature pub)))

/-- SignaturePrivateKey::generate, src/src/crypto.cpp lines 344-352. -/
def SignaturePrivateKey.generate (S : SignatureImpl) (id : CipherSuite.ID)
    (ent : MBytes) : Except MLSError SignaturePrivateKey :=
  (CipherSuite.get id).bind (fun _ =>
    let priv := S.generateKeyPair ent
    Except.ok ⟨S.serializePriv priv, S.serialize (S.publicKey priv)⟩)

/-- SignaturePrivateKey::parse, src/src/crypto.cpp lines 354-361. -/
def SignaturePrivateKey.parse (S : SignatureImpl) (id : CipherSuite.ID)
    (data : MBytes) : Except MLSError SignaturePrivateKey :=
  (CipherSuite.get id).bind (fun _ =>
    (S.deserializePriv data).bind (fun priv =>
      Except.ok ⟨data, S.serialize (S.publicKey priv)⟩))

/-- SignaturePrivateKey::derive, src/src/crypto.cpp lines 363-371. -/
def SignaturePrivateKey.derive (S : SignatureImpl) (id : CipherSuite.ID)
    (secret : MBytes) : Except MLSError SignaturePrivateKey :=
  (CipherSuite.get id).bind (fun _ =>
    let priv := S.deriveKeyPair secret
    Except.ok ⟨S.serializePriv priv, S.serialize (S.publicKey priv)⟩)

/-- SignaturePrivateKey::sign, src/src/crypto.cpp lines 373-381:
marshal SignContent from the label and message, deserialize the stored
private bytes, and sign the marshalled content. -/
def SignaturePrivateKey.sign (S : SignatureImpl) (id : CipherSuite.ID)
    (sk : SignaturePrivateKey) (label message : MBytes) :
    Except MLSError MBytes :=
  (CipherSuite.get id).bind (fun _ =>
    let content := SignContent.marshal ⟨label, message⟩
    (S.deserializePriv sk.data).bind (fun priv =>
      Except.ok (S.sign content priv)))

/-- Consistency of a stored signature key pair: deserializing the
stored private bytes succeeds and the stored public bytes are the
serialization of the public key derived from them. -/
def SignatureImpl.consistentPair (S : SignatureImpl)
    (sk : SignaturePrivateKey) : Prop :=
  match S.deserializePriv sk.data with
  | Except.ok priv => sk.public_key = S.serialize (S.publicKey priv)
  | Except.error _ => False

/-- A concrete toy KEM satisfying the spec's interface properties, used
to instantiate witnesses: keys are byte strings, the public key is the
reversed private key, serialization is the identity, and encapsulation
pairs the entropy with a shared secret built from both parties. -/
def toyKEM : KEMImpl where
  Priv := MBytes
  Pub := MBytes
  generateKeyPair := fun ent => ent
  deriveKeyPair := fun seed => seed
  publicKey := fun sk => sk.reverse
  serialize := fun pk => pk
  deserialize := fun b => Except.ok b
  serializePriv := fun sk => sk
  deserializePriv := fun b => Except.ok b
  encap := fun pk ent => (ent, pk ++ ent)
  decap := fun enc sk => sk.reverse ++ enc
  deserialize_serialize := fun _ => rfl
  deserializePriv_serializePriv := fun _ => rfl
  decap_encap := fun _ _ => rfl

/-- Tag octet of the toy AEAD: a checksum of key, nonce, aad and
plaintext. -/
def toyTag (key nonce aad pt : MBytes) : Nat :=
  (key.sum + nonce.sum + aad.sum + pt.sum) % 256

/-- A concrete toy AEAD with a real failure case: sealing prepends a
checksum tag, opening checks it and returns none on mismatch or on an
empty ciphertext. -/
def toyAEAD : AEADImpl where
  aeadSeal := fun key nonce aad pt => toyTag key nonce aad pt :: pt
  aeadOpen := fun key nonce aad ct =>
    match ct with
    | [] => none
    | t :: rest => if t = toyTag key nonce aad rest then some rest else none
  aeadOpen_seal := by intro key nonce aad pt; simp

/-- A concrete toy HPKE instance over the toy KEM and AEAD; the key
schedule returns the shared secret as key and the info as nonce. -/
def toyHPKE : HPKEImpl where
  kem := toyKEM
  aead := toyAEAD
  keySchedule := fun shared info => (shared, info)

/-- A concrete toy signature algorithm: the public key is the reversed
private key, a signature is the message followed by the private key,
and verification recomputes it from the public key. -/
def toySig : SignatureImpl where
  Priv := MBytes
  Pub := MBytes
  generateKeyPair := fun ent => ent
  deriveKeyPair := fun seed => seed
  publicKey := fun sk => sk.reverse
  serialize := fun pk => pk
  deserialize := fun b => Except.ok b
  serializePriv := fun sk => sk
  deserializePriv := fun b => Except.ok b
  sign := fun msg sk => msg ++ sk
  verify := fun msg sg pk => decide (sg = msg ++ pk.reverse)
  deserialize_serialize := fun _ => rfl
  deserializePriv_serializePriv := fun _ => rfl
  verify_sign := by intro msg sk; simp

/-- A concrete toy KDF: extract concatenates, expand emits exactly the
requested number of checksum octets. -/
def toyKDF : KDFImpl where
  extract := fun salt ikm => salt ++ ikm
  expand := fun prk info L =>
    (List.range L).map (fun i => (prk.sum + info.sum + i) % 256)
  expand_length := by intro prk info L; simp

/-- Every supported suite resolves through get. -/
theorem get_ok_of_supported {id : CipherSuite.ID}
    (h : id ∈ all_supported_suites) :
    ∃ c, CipherSuite.get id = Except.ok c := by
  fin_cases h <;> exact ⟨_, rfl⟩

/-- Keys returned by HPKEPrivateKey::generate are consistent. -/
theorem hpke_generate_consistent (H : HPKEImpl) {id : CipherSuite.ID}
    {c : Ciphers} (hg : CipherSuite.get id = Except.ok c) (ent : MBytes)
    (kp : HPKEPrivateKey) (hkp : HPKEPrivateKey.generate H id ent = Except.ok kp) :
    H.kem.consistentPair kp := by
  simp [HPKEPrivateKey.generate, hg, Except.bind] at hkp
  subst hkp
  simp [KEMImpl.consistentPair, H.kem.deserializePriv_serializePriv]

/-- Keys returned by HPKEPrivateKey::derive are consistent. -/
theorem hpke_derive_consistent (H : HPKEImpl) {id : CipherSuite.ID}
    {c : Ciphers} (hg : CipherSuite.get id = Except.ok c) (seed : MBytes)
    (kp : HPKEPrivateKey) (hkp : HPKEPrivateKey.derive H id seed = Except.ok kp) :
    H.kem.consistentPair kp := by
  simp [HPKEPrivateKey.derive, hg, Except.bind] at hkp
  subst hkp
  simp [KEMImpl.consistentPair, H.kem.deserializePriv_serializePriv]

/-- Keys returned by HPKEPrivateKey::parse are consistent. -/
theorem hpke_parse_consistent (H : HPKEImpl) {id : CipherSuite.ID}
    {c : Ciphers} (hg : CipherSuite.get id = Except.ok c) (data : MBytes)
    (kp : HPKEPrivateKey) (hkp : HPKEPrivateKey.parse H id data = Except.ok kp) :
    H.kem.consistentPair kp := by
  cases hd : H.kem.deserializePriv data with
  | error e => simp [HPKEPrivateKey.parse, hg, hd, Except.bind] at hkp
  | ok priv =>
    simp [HPKEPrivateKey.parse, hg, hd, Except.bind] at hkp
    subst hkp
    simp [KEMImpl.consistentPair, hd]

/-- Keys returned by SignaturePrivateKey::generate are consistent. -/
theorem sig_generate_consistent (S : SignatureImpl) {id : CipherSuite.ID}
    {c : Ciphers} (hg : CipherSuite.get id = Except.ok c) (ent : MBytes)
    (kp : SignaturePrivateKey)
    (hkp : SignaturePrivateKey.generate S id ent = Except.ok kp) :
    S.consistentPair kp := by
  simp [SignaturePrivateKey.generate, hg, Except.bind] at hkp
  subst hkp
  simp [SignatureImpl.consistentPair, S.deserializePriv_serializePriv]

/-- Keys returned by SignaturePrivateKey::derive are consistent. -/
theorem sig_derive_consistent (S : SignatureImpl) {id : CipherSuite.ID}
    {c : Ciphers} (hg : CipherSuite.get id = Except.ok c) (seed : MBytes)
    (kp : SignaturePrivateKey)
    (hkp : SignaturePrivateKey.derive S id seed = Except.ok kp) :
    S.consistentPair kp := by
  simp [SignaturePrivateKey.derive, hg, Except.bind] at hkp
  subst hkp
  simp [SignatureImpl.consistentPair, S.deserializePriv_serializePriv]

/-- Keys returned by SignaturePrivateKey::parse are consistent. -/
theorem sig_parse_consistent (S : SignatureImpl) {id : CipherSuite.ID}
    {c : Ciphers} (hg : CipherSuite.get id = Except.ok c) (data : MBytes)
    (kp : SignaturePrivateKey)
    (hkp : SignaturePrivateKey.parse S id data = Except.ok kp) :
    S.consistentPair kp := by
  cases hd : S.deserializePriv data with
  | error e => simp [SignaturePrivateKey.parse, hg, hd, Except.bind] at hkp
  | ok priv =>
    simp [SignaturePrivateKey.parse, hg, hd, Except.bind] at hkp
    subst hkp
    simp [SignatureImpl.consistentPair, hd]

/-- C3: every operation applied to a CipherSuite whose ID is the
unknown sentinel (wire code 0x0000, the default-constructed state)
fails with InvalidParameterError; in particular CipherSuite::get and
CipherSuite::signature_scheme do, and so does every key-schedule, HPKE
and signature operation modelled here, since each resolves the suite
through get. -/
theorem claim_C3_unknown_suite_fails :
    CipherSuite.ID.code .unknown = 0x0000
    ∧ CipherSuite.get .unknown =
        Except.error (MLSError.InvalidParameterError "Uninitialized ciphersuite")
    ∧ CipherSuite.signature_scheme .unknown =
        Except.error (MLSError.InvalidParameterError "Unsupported algorithm")
    ∧ CipherSuite.secret_size .unknown =
        Except.error (MLSError.InvalidParameterError "Uninitialized ciphersuite")
    ∧ (∀ kdf secret label context L,
        CipherSuite.expand_with_label kdf .unknown secret label context L =
          Except.error (MLSError.InvalidParameterError "Uninitialized ciphersuite"))
    ∧ (∀ kdf secret label,
        CipherSuite.derive_secret kdf .unknown secret label =
          Except.error (MLSError.InvalidParameterError "Uninitialized ciphersuite"))
    ∧ (∀ H data info aad pt ent,
        HPKEPublicKey.encrypt H .unknown data info aad pt ent =
          Except.error (MLSError.InvalidParameterError "Uninitialized ciphersuite"))
    ∧ (∀ H ent,
        HPKEPrivateKey.generate H .unknown ent =
          Except.error (MLSError.InvalidParameterError "Uninitialized ciphersuite"))
    ∧ (∀ H data,
        HPKEPrivateKey.parse H .unknown data =
          Except.error (MLSError.InvalidParameterError "Uninitialized ciphersuite"))
    ∧ (∀ H secret,
        HPKEPrivateKey.derive H .unknown secret =
          Except.error (MLSError.InvalidParameterError "Uninitialized ciphersuite"))
    ∧ (∀ H sk info aad ct,
        HPKEPrivateKey.decrypt H .unknown sk info aad ct =
          Except.error (MLSError.InvalidParameterError "Uninitialized ciphersuite"))
    ∧ (∀ S data label message signature,
        SignaturePublicKey.verify S .unknown data label message signature =
          Except.error (MLSError.InvalidParameterError "Uninitialized ciphersuite"))
    ∧ (∀ S ent,
        SignaturePrivateKey.generate S .unknown ent =
          Except.error (MLSError.InvalidParameterError "Uninitialized ciphersuite"))
    ∧ (∀ S data,
        SignaturePrivateKey.parse S .unknown data =
          Except.error (MLSError.InvalidParameterError "Uninitialized ciphersuite"))
    ∧ (∀ S secret,
        SignaturePrivateKey.derive S .unknown secret =
          Except.error (MLSError.InvalidParameterError "Uninitialized ciphersuite"))
    ∧ (∀ S sk label message,
        SignaturePrivateKey.sign S .unknown sk label message =
          Except.error (MLSError.InvalidParameterError "Uninitialized ciphersuite")) :=
  ⟨rfl, rfl, rfl, rfl,
   fun _ _ _ _ _ => rfl, fun _ _ _ => rfl,
   fun _ _ _ _ _ _ => rfl, fun _ _ => rfl, fun _ _ => rfl, fun _ _ => rfl,
   fun _ _ _ _ _ => rfl,
   fun _ _ _ _ _ => rfl, fun _ _ => rfl, fun _ _ => rfl, fun _ _ => rfl,
   fun _ _ _ _ => rfl⟩

/-- C8: for each of the six supported ciphersuite IDs,
CipherSuite::signature_scheme returns exactly the TLS signature scheme
code that tls_signature_scheme assigns to the signature algorithm in
the bundle returned by CipherSuite::get, namely ed25519 for the X25519
suites, ecdsa_secp256r1_sha256 for P256, ed448 for the X448 suites and
ecdsa_secp521r1_sha512 for P521. -/
theorem claim_C8_signature_scheme_matches_sig :
    ((CipherSuite.get .X25519_AES128GCM_SHA256_Ed25519).map
        (fun c => tls_signature_scheme c.sig) = Except.ok .ed25519
      ∧ CipherSuite.signature_scheme .X25519_AES128GCM_SHA256_Ed25519 =
        Except.ok .ed25519)
    ∧ ((CipherSuite.get .P256_AES128GCM_SHA256_P256).map
        (fun c => tls_signature_scheme c.sig) = Except.ok .ecdsa_secp256r1_sha256
      ∧ CipherSuite.signature_scheme .P256_AES128GCM_SHA256_P256 =
        Except.ok .ecdsa_secp256r1_sha256)
    ∧ ((CipherSuite.get .X25519_CHACHA20POLY1305_SHA256_Ed25519).map
        (fun c => tls_signature_scheme c.sig) = Except.ok .ed25519
      ∧ CipherSuite.signature_scheme .X25519_CHACHA20POLY1305_SHA256_Ed25519 =
        Except.ok .ed25519)
    ∧ ((CipherSuite.get .X448_AES256GCM_SHA512_Ed448).map
        (fun c => tls_signature_scheme c.sig) = Except.ok .ed448
      ∧ CipherSuite.signature_scheme .X448_AES256GCM_SHA512_Ed448 =
        Except.ok .ed448)
    ∧ ((CipherSuite.get .P521_AES256GCM_SHA512_P521).map
        (fun c => tls_signature_scheme c.sig) = Except.ok .ecdsa_secp521r1_sha512
      ∧ CipherSuite.signature_scheme .P521_AES256GCM_SHA512_P521 =
        Except.ok .ecdsa_secp521r1_sha512)
    ∧ ((CipherSuite.get .X448_CHACHA20POLY1305_SHA512_Ed448).map
        (fun c => tls_signature_scheme c.sig) = Except.ok .ed448
      ∧ CipherSuite.signature_scheme .X448_CHACHA20POLY1305_SHA512_Ed448 =
        Except.ok .ed448) :=
  ⟨⟨rfl, rfl⟩, ⟨rfl, rfl⟩, ⟨rfl, rfl⟩, ⟨rfl, rfl⟩, ⟨rfl, rfl⟩, ⟨rfl, rfl⟩⟩

/-- C4: for every supported ciphersuite and all inputs,
expand_with_label equals KDF.expand of the secret with the marshalled
HKDFLabel whose length field is the requested length as a uint16_t,
whose label is "mls10 " prepended to the caller's label, and whose
context is the caller's context; the HKDFLabel marshalling is the u16
length in network order followed by the two variable-length vectors. -/
theorem claim_C4_expand_with_label (kdf : KDFImpl) (id : CipherSuite.ID)
    (h : id ∈ all_supported_suites) (secret : MBytes) (label : String)
    (context : MBytes) (L : Nat) :
    CipherSuite.expand_with_label kdf id secret label context L =
      Except.ok (kdf.expand secret
        (HKDFLabel.marshal ⟨L % 65536, from_ascii ("mls10 " ++ label), context⟩) L)
    ∧ HKDFLabel.marshal ⟨L % 65536, from_ascii ("mls10 " ++ label), context⟩ =
      encodeU16 (L % 65536) ++ encodeVec (from_ascii ("mls10 " ++ label)) ++
        encodeVec context
    ∧ from_ascii ("mls10 " ++ label) =
      [109, 108, 115, 49, 48, 32] ++ from_ascii label := by
  obtain ⟨c, hg⟩ := get_ok_of_supported h
  refine ⟨?_, rfl, ?_⟩
  · simp [CipherSuite.expand_with_label, hg, Except.bind]
  · simp [from_ascii]

/-- C4 witness at the first supported suite with the toy KDF. -/
theorem claim_C4_witness :
    CipherSuite.ID.X25519_AES128GCM_SHA256_Ed25519 ∈ all_supported_suites
    ∧ (CipherSuite.expand_with_label toyKDF .X25519_AES128GCM_SHA256_Ed25519
          [0] "test" [] 32 =
        Except.ok (toyKDF.expand [0]
          (HKDFLabel.marshal ⟨32 % 65536, from_ascii ("mls10 " ++ "test"), []⟩) 32)
      ∧ HKDFLabel.marshal ⟨32 % 65536, from_ascii ("mls10 " ++ "test"), []⟩ =
        encodeU16 (32 % 65536) ++ encodeVec (from_ascii ("mls10 " ++ "test")) ++
          encodeVec []
      ∧ from_ascii ("mls10 " ++ "test") =
        [109, 108, 115, 49, 48, 32] ++ from_ascii "test") :=
  ⟨by decide,
   claim_C4_expand_with_label toyKDF _ (by decide) [0] "test" [] 32⟩

/-- C10: for every supported ciphersuite and every requested length of
at least 2^16, expand_with_label still succeeds, encoding the HKDFLabel
length field as the length mod 2^16 via the uint16_t cast while
requesting the full length from KDF.expand, so the encoded length field
disagrees with the requested output length. -/
theorem claim_C10_length_truncation (kdf : KDFImpl) (id : CipherSuite.ID)
    (h : id ∈ all_supported_suites) (secret : MBytes) (label : String)
    (context : MBytes) (L : Nat) (hL : 65536 ≤ L) :
    CipherSuite.expand_with_label kdf id secret label context L =
      Except.ok (kdf.expand secret
        (HKDFLabel.marshal ⟨L % 65536, from_ascii ("mls10 " ++ label), context⟩) L)
    ∧ L % 65536 ≠ L := by
  obtain ⟨c, hg⟩ := get_ok_of_supported h
  constructor
  · simp [CipherSuite.expand_with_label, hg, Except.bind]
  · omega

/-- C10 witness at the first supported suite, requesting 2^16 octets
from the toy KDF. -/
theorem claim_C10_witness :
    CipherSuite.ID.X25519_AES128GCM_SHA256_Ed25519 ∈ all_supported_suites
    ∧ 65536 ≤ 65536
    ∧ (CipherSuite.expand_with_label toyKDF .X25519_AES128GCM_SHA256_Ed25519
          [1] "big" [2] 65536 =
        Except.ok (toyKDF.expand [1]
          (HKDFLabel.marshal ⟨65536 % 65536, from_ascii ("mls10 " ++ "big"), [2]⟩)
          65536)
      ∧ 65536 % 65536 ≠ 65536) :=
  ⟨by decide, by decide,
   claim_C10_length_truncation toyKDF _ (by decide) [1] "big" [2] 65536
     (by decide)⟩

/-- C9: make_reference expands the extract of the marshalled value under
the type's reference label, requesting 16 octets, and by the KDF expand
length law the output has exactly 16 octets for every KDF; the
KeyPackage reference label is the ASCII bytes of
"MLS 1.0 KeyPackage Reference" and the MLSAuthenticatedContent
reference label is the ASCII bytes of "MLS 1.0 Proposal Reference". -/
theorem claim_C9_make_reference {α : Type} (kdf : KDFImpl)
    (marshalT : α → MBytes) (value : α) :
    make_reference kdf reference_label_KeyPackage marshalT value =
      kdf.expand (kdf.extract [] (marshalT value)) reference_label_KeyPackage 16
    ∧ make_reference kdf reference_label_MLSAuthenticatedContent marshalT value =
      kdf.expand (kdf.extract [] (marshalT value))
        reference_label_MLSAuthenticatedContent 16
    ∧ (∀ label : MBytes, (make_reference kdf label marshalT value).length = 16)
    ∧ reference_label_KeyPackage =
      [77, 76, 83, 32, 49, 46, 48, 32, 75, 101, 121, 80, 97, 99, 107, 97,
       103, 101, 32, 82, 101, 102, 101, 114, 101, 110, 99, 101]
    ∧ reference_label_MLSAuthenticatedContent =
      [77, 76, 83, 32, 49, 46, 48, 32, 80, 114, 111, 112, 111, 115, 97,
       108, 32, 82, 101, 102, 101, 114, 101, 110, 99, 101] :=
  ⟨rfl, rfl, fun label => kdf.expand_length _ label 16, by decide, by decide⟩

/-- C5: for every ciphersuite, label and message, sign signs exactly
the marshalled SignContent of the label and message and verify checks
the signature against exactly those bytes, where the SignContent
marshalling is the two variable-length vectors in order; and the four
standard MLS sign-labels are exactly the stated ASCII byte
sequences. -/
theorem claim_C5_sign_content (S : SignatureImpl) (id : CipherSuite.ID)
    (h : id ∈ all_supported_suites) (sk : SignaturePrivateKey)
    (pubData label message signature : MBytes) :
    SignaturePrivateKey.sign S id sk label message =
      (S.deserializePriv sk.data).map (fun priv =>
        S.sign (SignContent.marshal ⟨label, message⟩) priv)
    ∧ SignaturePublicKey.verify S id pubData label message signature =
      (S.deserialize pubData).map (fun pub =>
        S.verify (SignContent.marshal ⟨label, message⟩) signature pub)
    ∧ SignContent.marshal ⟨label, message⟩ = encodeVec label ++ encodeVec message
    ∧ sign_label_mls_content =
      [77, 76, 83, 32, 49, 46, 48, 32, 77, 76, 83, 67, 111, 110, 116,
       101, 110, 116, 84, 66, 83]
    ∧ sign_label_leaf_node =
      [77, 76, 83, 32, 49, 46, 48, 32, 76, 101, 97, 102, 78, 111, 100,
       101, 84, 66, 83]
    ∧ sign_label_key_package =
      [77, 76, 83, 32, 49, 46, 48, 32, 75, 101, 121, 80, 97, 99, 107,
       97, 103, 101, 84, 66, 83]
    ∧ sign_label_group_info =
      [77, 76, 83, 32, 49, 46, 48, 32, 71, 114, 111, 117, 112, 73, 110,
       102, 111, 84, 66, 83] := by
  obtain ⟨c, hg⟩ := get_ok_of_supported h
  refine ⟨?_, ?_, rfl, by decide, by decide, by decide, by decide⟩
  · cases hd : S.deserializePriv sk.data <;>
      simp [SignaturePrivateKey.sign, hg, Except.bind, Except.map, hd]
  · cases hd : S.deserialize pubData <;>
      simp [SignaturePublicKey.verify, hg, Except.bind, Except.map, hd]

/-- C5 witness at the second supported suite with the toy signature
algorithm. -/
theorem claim_C5_witness :
    CipherSuite.ID.P256_AES128GCM_SHA256_P256 ∈ all_supported_suites
    ∧ (SignaturePrivateKey.sign toySig .P256_AES128GCM_SHA256_P256
          ⟨[1, 2], [2, 1]⟩ [3] [4, 5] =
        (toySig.deserializePriv [1, 2]).map (fun priv =>
          toySig.sign (SignContent.marshal ⟨[3], [4, 5]⟩) priv)
      ∧ SignaturePublicKey.verify toySig .P256_AES128GCM_SHA256_P256
          [2, 1] [3] [4, 5] [9] =
        (toySig.deserialize [2, 1]).map (fun pub =>
          toySig.verify (SignContent.marshal ⟨[3], [4, 5]⟩) [9] pub)
      ∧ SignContent.marshal ⟨[3], [4, 5]⟩ = encodeVec [3] ++ encodeVec [4, 5]
      ∧ sign_label_mls_content =
        [77, 76, 83, 32, 49, 46, 48, 32, 77, 76, 83, 67, 111, 110, 116,
         101, 110, 116, 84, 66, 83]
      ∧ sign_label_leaf_node =
        [77, 76, 83, 32, 49, 46, 48, 32, 76, 101, 97, 102, 78, 111, 100,
         101, 84, 66, 83]
      ∧ sign_label_key_package =
        [77, 76, 83, 32, 49, 46, 48, 32, 75, 101, 121, 80, 97, 99, 107,
         97, 103, 101, 84, 66, 83]
      ∧ sign_label_group_info =
        [77, 76, 83, 32, 49, 46, 48, 32, 71, 114, 111, 117, 112, 73, 110,
         102, 111, 84, 66, 83]) :=
  ⟨by decide,
   claim_C5_sign_content toySig _ (by decide) ⟨[1, 2], [2, 1]⟩ [2, 1] [3]
     [4, 5] [9]⟩

/-- C6: for every supported ciphersuite, every label and message, and
every key pair produced by SignaturePrivateKey::generate, verifying the
signature produced by sign under the stored public key returns true. -/
theorem claim_C6_signature_round_trip (S : SignatureImpl)
    (id : CipherSuite.ID) (h : id ∈ all_supported_suites)
    (ent label message : MBytes) :
    (SignaturePrivateKey.generate S id ent).bind (fun kp =>
      (SignaturePrivateKey.sign S id kp label message).bind (fun sg =>
        SignaturePublicKey.verify S id kp.public_key label message sg)) =
      Except.ok true := by
  obtain ⟨c, hg⟩ := get_ok_of_supported h
  simp [SignaturePrivateKey.generate, SignaturePrivateKey.sign,
        SignaturePublicKey.verify, hg, Except.bind,
        S.deserializePriv_serializePriv, S.deserialize_serialize,
        S.verify_sign]

/-- C6 witness at the second supported suite with the toy signature
algorithm. -/
theorem claim_C6_witness :
    CipherSuite.ID.P256_AES128GCM_SHA256_P256 ∈ all_supported_suites
    ∧ (SignaturePrivateKey.generate toySig .P256_AES128GCM_SHA256_P256
          [0, 1, 2, 3]).bind (fun kp =>
        (SignaturePrivateKey.sign toySig .P256_AES128GCM_SHA256_P256 kp
            [5] [1, 2, 3, 4]).bind (fun sg =>
          SignaturePublicKey.verify toySig .P256_AES128GCM_SHA256_P256
            kp.public_key [5] [1, 2, 3, 4] sg)) = Except.ok true :=
  ⟨by decide,
   claim_C6_signature_round_trip toySig _ (by decide) [0, 1, 2, 3] [5]
     [1, 2, 3, 4]⟩

/-- C2: for every supported ciphersuite, all byte strings info, aad and
pt, and every key pair produced by HPKEPrivateKey::generate, decrypting
the ciphertext produced by HPKEPublicKey::encrypt on the stored public
key returns exactly pt. -/
theorem claim_C2_hpke_round_trip (H : HPKEImpl) (id : CipherSuite.ID)
    (h : id ∈ all_supported_suites) (ent ent2 info aad pt : MBytes) :
    (HPKEPrivateKey.generate H id ent).bind (fun sk =>
      (HPKEPublicKey.encrypt H id sk.public_key info aad pt ent2).bind
        (fun ct => HPKEPrivateKey.decrypt H id sk info aad ct)) =
      Except.ok pt := by
  obtain ⟨c, hg⟩ := get_ok_of_supported h
  simp [HPKEPrivateKey.generate, HPKEPublicKey.encrypt,
        HPKEPrivateKey.decrypt, hg, Except.bind,
        setup_base_s, setup_base_r, H.kem.deserialize_serialize,
        H.kem.deserializePriv_serializePriv, H.kem.decap_encap,
        H.aead.aeadOpen_seal]

/-- C2 witness at the first supported suite with the toy HPKE
instance. -/
theorem claim_C2_witness :
    CipherSuite.ID.X25519_AES128GCM_SHA256_Ed25519 ∈ all_supported_suites
    ∧ (HPKEPrivateKey.generate toyHPKE .X25519_AES128GCM_SHA256_Ed25519
          [9, 8]).bind (fun sk =>
        (HPKEPublicKey.encrypt toyHPKE .X25519_AES128GCM_SHA256_Ed25519
            sk.public_key [1] [2] [7, 7, 7] [6]).bind (fun ct =>
          HPKEPrivateKey.decrypt toyHPKE .X25519_AES128GCM_SHA256_Ed25519
            sk [1] [2] ct)) = Except.ok [7, 7, 7] :=
  ⟨by decide,
   claim_C2_hpke_round_trip toyHPKE _ (by decide) [9, 8] [6] [1] [2]
     [7, 7, 7]⟩

/-- C7: for every supported ciphersuite, every private key returned by
generate, derive or parse, for both HPKE and signature keys, stores a
public_key equal to the serialization of the public key derived from
its stored private bytes. -/
theorem claim_C7_consistent_key_pairs (H : HPKEImpl) (S : SignatureImpl)
    (id : CipherSuite.ID) (h : id ∈ all_supported_suites) :
    (∀ ent kp, HPKEPrivateKey.generate H id ent = Except.ok kp →
      H.kem.consistentPair kp)
    ∧ (∀ seed kp, HPKEPrivateKey.derive H id seed = Except.ok kp →
      H.kem.consistentPair kp)
    ∧ (∀ data kp, HPKEPrivateKey.parse H id data = Except.ok kp →
      H.kem.consistentPair kp)
    ∧ (∀ ent kp, SignaturePrivateKey.generate S id ent = Except.ok kp →
      S.consistentPair kp)
    ∧ (∀ seed kp, SignaturePrivateKey.derive S id seed = Except.ok kp →
      S.consistentPair kp)
    ∧ (∀ data kp, SignaturePrivateKey.parse S id data = Except.ok kp →
      S.consistentPair kp) := by
  obtain ⟨c, hg⟩ := get_ok_of_supported h
  exact ⟨fun ent kp => hpke_generate_consistent H hg ent kp,
         fun seed kp => hpke_derive_consistent H hg seed kp,
         fun data kp => hpke_parse_consistent H hg data kp,
         fun ent kp => sig_generate_consistent S hg ent kp,
         fun seed kp => sig_derive_consistent S hg seed kp,
         fun data kp => sig_parse_consistent S hg data kp⟩

/-- C7 witness: a concretely generated toy HPKE key pair is
consistent. -/
theorem claim_C7_witness :
    CipherSuite.ID.P256_AES128GCM_SHA256_P256 ∈ all_supported_suites
    ∧ toyHPKE.kem.consistentPair ⟨[0, 1, 2], [2, 1, 0]⟩ :=
  ⟨by decide,
   (claim_C7_consistent_key_pairs toyHPKE toySig
      .P256_AES128GCM_SHA256_P256 (by decide)).1 [0, 1, 2]
     ⟨[0, 1, 2], [2, 1, 0]⟩ (by rfl)⟩

/-- C1 counterexample: a concrete decryption whose AEAD open yields no
plaintext (the toy AEAD returns none on the empty ciphertext, whose
checksum tag is missing) makes HPKEPrivateKey::decrypt fail, but with
InvalidParameterError carrying the message "HPKE decryption failure" —
the exception thrown at src/src/crypto.cpp line 286 — and not with an
error of the HPKEDecryptionError kind, refuting the claim as stated. -/
theorem claim_C1_counterexample :
    toyHPKE.aead.aeadOpen
        (setup_base_r toyHPKE [5] ([1, 2] : MBytes) [3]).1
        (setup_base_r toyHPKE [5] ([1, 2] : MBytes) [3]).2 [4] [] = none
    ∧ HPKEPrivateKey.decrypt toyHPKE .X25519_AES128GCM_SHA256_Ed25519
        ⟨[1, 2], [2, 1]⟩ [3] [4] ⟨[5], []⟩ =
      Except.error (MLSError.InvalidParameterError "HPKE decryption failure")
    ∧ (MLSError.InvalidParameterError
        "HPKE decryption failure").isHPKEDecryptionError = false :=
  ⟨rfl, rfl, rfl⟩

/-- C1 amended: for every supported ciphersuite, every info and aad,
and every HPKECiphertext whose AEAD open yields no plaintext,
HPKEPrivateKey::decrypt fails, but with InvalidParameterError carrying
the message "HPKE decryption failure" rather than with a distinct
HPKEDecryptionError kind. -/
theorem claim_C1_decrypt_failure (H : HPKEImpl) (id : CipherSuite.ID)
    (h : id ∈ all_supported_suites) (sk : HPKEPrivateKey)
    (info aad : MBytes) (ct : HPKECiphertext) (skR : H.kem.Priv)
    (hsk : H.kem.deserializePriv sk.data = Except.ok skR)
    (hopen : H.aead.aeadOpen (setup_base_r H ct.kem_output skR info).1
      (setup_base_r H ct.kem_output skR info).2 aad ct.ciphertext = none) :
    HPKEPrivateKey.decrypt H id sk info aad ct =
      Except.error (MLSError.InvalidParameterError "HPKE decryption failure") := by
  obtain ⟨c, hg⟩ := get_ok_of_supported h
  simp [HPKEPrivateKey.decrypt, hg, Except.bind, hsk, hopen]

/-- C1 witness: the amended statement applied at the concrete failing
toy input. -/
theorem claim_C1_witness :
    CipherSuite.ID.X25519_AES128GCM_SHA256_Ed25519 ∈ all_supported_suites
    ∧ toyHPKE.kem.deserializePriv [1, 2] = Except.ok ([1, 2] : MBytes)
    ∧ toyHPKE.aead.aeadOpen
        (setup_base_r toyHPKE [5] ([1, 2] : MBytes) [3]).1
        (setup_base_r toyHPKE [5] ([1, 2] : MBytes) [3]).2 [4] [] = none
    ∧ HPKEPrivateKey.decrypt toyHPKE .X25519_AES128GCM_SHA256_Ed25519
        ⟨[1, 2], [2, 1]⟩ [3] [4] ⟨[5], []⟩ =
      Except.error (MLSError.InvalidParameterError "HPKE decryption failure") :=
  ⟨by decide, rfl, rfl,
   claim_C1_decrypt_failure toyHPKE .X25519_AES128GCM_SHA256_Ed25519
     (by decide) ⟨[1, 2], [2, 1]⟩ [3] [4] ⟨[5], []⟩ ([1, 2] : MBytes) rfl rfl⟩
